import Mathlib

/-!
Verification development for the browse-chat-buddy repository's Browser
Session Control Engine.  The definitions below are shallow embeddings of the
relevant JavaScript/TypeScript source functions:

* `Translator`  — `AIService.processCommand` from `src/server/server.js`
  (duplicated, up to one dead local variable, in
  `src/supabase/functions/cloudai-websocket/index.ts`).
* `TypeSem`     — keystroke-level semantics of a text field, used to compare
  `RealBrowser.type` (BROWSER server) with the `type` case of
  `executeAction` (`src/server/server.js`).
* `ServerJs`    — the global-state CloudAI server from `src/server/server.js`.
* `BrowserSrv`  — the per-session BROWSER server (the `RealBrowser` class,
  its WebSocket message handler and the close endpoint).
* `CloudWs`     — the `stop` message case of
  `src/supabase/functions/cloudai-websocket/index.ts`.
* `Automation`  — the request handlers of
  `src/supabase/functions/browser-automation/index.ts`.

External effects (network calls, puppeteer, the database) are modelled by
explicit outcome parameters (`launchOk`, `opOk`, `fetchOk`, ...) and by
threading an explicit database state.
-/

namespace Translator

/-- One structured browser action, as produced by `AIService.processCommand`:
a JS object `{action, params}` with kind-specific optional parameters. -/
structure AIAction where
  action : String
  url : Option String := none
  selector : Option String := none
  text : Option String := none
  pixels : Option Int := none
  ms : Option Nat := none
  deriving DecidableEq, Repr

/-- Whitespace characters recognised for the JS regex class `\s`
(the common subset; exotic unicode spaces are not modelled). -/
def isWs (c : Char) : Bool := c = ' ' || c = '\t' || c = '\n' || c = '\r'

/-- Length of the leading whitespace run of a character list. -/
def wsRun : List Char → Nat
  | [] => 0
  | c :: cs => if isWs c then wsRun cs + 1 else 0

/-- Does `pat` occur inside `s` (both as character lists)? -/
def containsSeq (pat : List Char) : List Char → Bool
  | [] => pat.isEmpty
  | c :: cs => pat.isPrefixOf (c :: cs) || containsSeq pat cs

/-- Models `message.toLowerCase().includes(pat)` from the JS source. -/
def containsLower (message : String) (pat : String) : Bool :=
  containsSeq pat.data (message.data.map Char.toLower)

/-- Try to match `pat` (already lowercased) at the head of `low`, the
lowercased message; on success return the capture of `\s+(.+)` taken from
`orig`, the original-case message, mimicking the backtracking of the greedy
`\s+` so that the capture is nonempty whenever possible. -/
def tryPat (pat : List Char) (orig low : List Char) : Option (List Char) :=
  if pat.isPrefixOf low then
    let rest := orig.drop pat.length
    let w := wsRun rest
    if w = 0 then none
    else
      let k := if w < rest.length then w else w - 1
      let cap := rest.drop k
      if cap.isEmpty then none else some cap
  else none

/-- Scan the message left to right for the leftmost match of the JS regex
`/(?:go to|visit)\s+(.+)/i` and return the capture group.  `orig` and `low`
walk in lockstep over the original and the lowercased message. -/
def scanGoToVisit : List Char → List Char → Option (List Char)
  | [], _ => none
  | _ :: _, [] => none
  | o :: os, l :: ls =>
      match tryPat "go to".data (o :: os) (l :: ls) with
      | some cap => some cap
      | none =>
        match tryPat "visit".data (o :: os) (l :: ls) with
        | some cap => some cap
        | none => scanGoToVisit os ls

/-- Models `message.match(/(?:go to|visit)\s+(.+)/i)`, returning the capture. -/
def matchGoToVisit (message : String) : Option String :=
  (scanGoToVisit message.data (message.data.map Char.toLower)).map List.asString

/-- The literal object `{action: "navigate", params: {url: "https://google.com"}}`
returned by several branches of `processCommand`. -/
def defaultNavigate : AIAction :=
  { action := "navigate", url := some "https://google.com" }

/-- The local heuristic fallback of `AIService.processCommand`, entered when
`JSON.parse` of the model output throws (`src/server/server.js` lines 58-75). -/
def fallbackParse (message : String) : AIAction :=
  if containsLower message "search" then
    defaultNavigate
  else if containsLower message "go to" || containsLower message "visit" then
    match matchGoToVisit message with
    | some u => { action := "navigate", url := some u }
    | none => defaultNavigate
  else
    defaultNavigate

/-- Outcome of the external inference call inside `processCommand`:
the request (or reading `choices[0].message.content`) threw; or the service
returned content that `JSON.parse` either rejected (`output none`) or parsed
into some action value, returned unchecked (`output (some a)`). -/
inductive AIOutcome where
  | serviceError : AIOutcome
  | output : Option AIAction → AIOutcome
  deriving DecidableEq, Repr

/-- Models `AIService.processCommand` (`src/server/server.js` lines 30-83): the outer
catch turns any service failure into the default navigate action; unparseable
model output goes to the heuristic fallback; parseable output is returned
as-is. -/
def processCommand (message : String) : AIOutcome → AIAction
  | AIOutcome.serviceError => defaultNavigate
  | AIOutcome.output (some a) => a
  | AIOutcome.output none => fallbackParse message

/-- Structural validity of an action, following the Action schema of the spec
(kind plus its kind-specific parameters). -/
def validAction (a : AIAction) : Bool :=
  (a.action = "navigate" && a.url.isSome)
  || (a.action = "click" && a.selector.isSome)
  || (a.action = "type" && a.selector.isSome && a.text.isSome)
  || a.action = "scroll"
  || a.action = "wait"

end Translator

namespace TypeSem

/-- A focused text field: its content (as a character list) and whether the
whole content is currently selected (the state after Ctrl+A). -/
structure TextField where
  content : List Char
  selAll : Bool
  deriving DecidableEq, Repr

/-- Clicking the field focuses it and collapses any selection
(`page.click(selector)`). -/
def clickField (f : TextField) : TextField :=
  { f with selAll := false }

/-- Models `keyboard.down(Control); keyboard.press(KeyA); keyboard.up(Control)`:
select the whole content. -/
def ctrlA (f : TextField) : TextField :=
  { f with selAll := true }

/-- One keystroke of `page.type`: a character typed over a full selection
replaces it, otherwise it is appended at the caret. -/
def typeChar (f : TextField) (c : Char) : TextField :=
  if f.selAll then { content := [c], selAll := false }
  else { content := f.content ++ [c], selAll := false }

/-- Models `page.type(selector, text)`: the text is typed character by character. -/
def typeKeys (f : TextField) (text : List Char) : TextField :=
  text.foldl typeChar f

/-- Models `RealBrowser.type` from the BROWSER server (src/unnamed/part_003 lines
183-196): click the field, select all with Ctrl+A, then type the text. -/
def realBrowserType (f : TextField) (text : List Char) : TextField :=
  typeKeys (ctrlA (clickField f)) text

/-- The `type` case of `executeAction` in `src/server/server.js` (lines
139-141): `waitForSelector` then `page.type` — no clearing of any kind. -/
def serverType (f : TextField) (text : List Char) : TextField :=
  typeKeys f text

end TypeSem

namespace ServerJs

/-- One connected WebSocket client of the CloudAI server; `isOpen` models
`client.readyState === WebSocket.OPEN`. -/
structure ClientConn where
  id : Nat
  isOpen : Bool
  deriving DecidableEq, Repr

/-- The module-global mutable state of `src/server/server.js` (lines 17-21):
`browser`, `page`, `screenshotInterval`, `connectedClients`.  Driver handles
are numbered from a counter; `closedBrowsers` records every handle on which
`browser.close()` has been awaited, so a handle is live exactly when it is
the current `browser` and not in `closedBrowsers`. -/
structure ServerState where
  browser : Option Nat
  page : Option Nat
  screenshotInterval : Option Nat
  connectedClients : List ClientConn
  closedBrowsers : List Nat
  nextHandle : Nat
  deriving DecidableEq, Repr

/-- Result object of `initializeBrowser`. -/
structure InitResult where
  success : Bool
  message : Option String
  error : Option String
  deriving DecidableEq, Repr

/-- Models `startScreenshotStream` (lines 165-199): clears any existing interval and
installs a fresh one. -/
def startScreenshotStream (st : ServerState) : ServerState :=
  { st with screenshotInterval := some st.nextHandle,
            nextHandle := st.nextHandle + 1 }

/-- Models `initializeBrowser` (lines 89-121): closes the current browser if any,
launches a new one (`launchOk` is the puppeteer outcome), opens a page and
starts the screenshot stream.  On a launch failure the JS `browser` variable
still refers to the old, already-closed object. -/
def initializeBrowser (st : ServerState) (launchOk : Bool) :
    ServerState × InitResult :=
  let closed := match st.browser with
    | some b => b :: st.closedBrowsers
    | none => st.closedBrowsers
  if launchOk then
    let st1 : ServerState :=
      { browser := some st.nextHandle,
        page := some (st.nextHandle + 1),
        screenshotInterval := st.screenshotInterval,
        connectedClients := st.connectedClients,
        closedBrowsers := closed,
        nextHandle := st.nextHandle + 2 }
    (startScreenshotStream st1,
     { success := true, message := some "Browser initialized", error := none })
  else
    ({ st with closedBrowsers := closed },
     { success := false, message := none, error := some "launch failed" })

/-- Result object of `executeAction`. -/
structure ExecResult where
  success : Bool
  message : Option String
  error : Option String
  deriving DecidableEq, Repr

/-- Shared shape of the five known cases of `executeAction`: each awaits one
or two page operations (whose joint outcome is `opOk`) and returns the
uniform success object; a thrown page error is caught and reported. -/
def runCase (kind : String) (opOk : Bool) : ExecResult :=
  if opOk then
    { success := true, message := some ("Action " ++ kind ++ " executed"),
      error := none }
  else
    { success := false, message := none, error := some "page operation failed" }

/-- Models `executeAction` (lines 123-163): fails when no page exists, otherwise
switches on the action kind; an unknown kind throws, which the catch turns
into a failed result. -/
def executeAction (page : Option Nat) (a : Translator.AIAction)
    (opOk : Bool) : ExecResult :=
  match page with
  | none =>
      { success := false, message := none,
        error := some "Browser not initialized" }
  | some _ =>
      match a.action with
      | "navigate" => runCase "navigate" opOk
      | "click" => runCase "click" opOk
      | "type" => runCase "type" opOk
      | "scroll" => runCase "scroll" opOk
      | "wait" => runCase "wait" opOk
      | k =>
          { success := false, message := none,
            error := some ("Unknown action: " ++ k) }

/-- One screenshot frame message, serialized once per tick (lines 182-187). -/
structure Frame where
  data : String
  url : String
  timestamp : Nat
  deriving DecidableEq, Repr

/-- The broadcast loop of the screenshot interval (lines 189-193): the single
serialized message is sent to every client whose readyState is OPEN. -/
def broadcastFrame (clients : List ClientConn) (msg : Frame) :
    List (Nat × Frame) :=
  (clients.filter (fun c => c.isOpen)).map (fun c => (c.id, msg))

/-- The guard of the screenshot interval callback (line 172):
`if (page && connectedClients.size > 0)`.  Note that it consults no record of
a still-running capture. -/
def tickCaptures (st : ServerState) : Bool :=
  st.page.isSome && st.connectedClients.length != 0

/-- Models `setInterval` fires its async callback on every tick regardless of
whether an earlier invocation is still awaiting `page.screenshot()`.  The
list holds the remaining tick counts of in-flight captures; one tick ages
them, completions drop out, and a new capture of duration `dur` starts
whenever the callback's guard `tickCaptures` holds. -/
def streamStep (st : ServerState) (inFlight : List Nat) (dur : Nat) :
    List Nat :=
  let aged := (inFlight.map (fun d => d - 1)).filter (fun d => d != 0)
  if tickCaptures st then dur :: aged else aged

/-- A sample server state with a live page and one open client. -/
def sampleState : ServerState :=
  { browser := some 0, page := some 1, screenshotInterval := some 2,
    connectedClients := [{ id := 7, isOpen := true }],
    closedBrowsers := [], nextHandle := 3 }

end ServerJs

namespace BrowserSrv

/-- A row of the `browser_sessions` table, as written by
`updateSessionInDB`. -/
structure SessionRow where
  id : String
  user_id : String
  status : String
  current_url : Option String
  last_action : Option String
  deriving DecidableEq, Repr

/-- A row of the `browser_actions` table, as written by `logAction`;
`details` keeps the fields of the JS details object. -/
structure ActionRow where
  session_id : String
  user_id : String
  action : String
  details : List (String × String)
  deriving DecidableEq, Repr

/-- The external Supabase store: the sessions table (upserted by id) and the
append-only actions table. -/
structure Db where
  browser_sessions : List SessionRow
  browser_actions : List ActionRow
  deriving DecidableEq, Repr

/-- Supabase `upsert` on `browser_sessions`: replace the row with the same
primary key, or append a new row. -/
def upsertRows (row : SessionRow) : List SessionRow → List SessionRow
  | [] => [row]
  | r :: rs => if r.id == row.id then row :: rs else r :: upsertRows row rs

/-- The stored row for a session id. -/
def findSessionRow (db : Db) (sid : String) : Option SessionRow :=
  db.browser_sessions.find? (fun r => r.id == sid)

/-- Models `RealBrowser.updateSessionInDB` (src/unnamed/part_003 lines 128-143). -/
def updateSessionInDB (db : Db) (sid uid status : String)
    (currentUrl lastAction : Option String) : Db :=
  let row : SessionRow :=
    { id := sid, user_id := uid, status := status,
      current_url := currentUrl, last_action := lastAction }
  { db with browser_sessions := upsertRows row db.browser_sessions }

/-- Models `RealBrowser.logAction` (lines 145-159): append one row to the
`browser_actions` table. -/
def logAction (db : Db) (sid uid action : String)
    (details : List (String × String)) : Db :=
  { db with browser_actions :=
      db.browser_actions ++
        [{ session_id := sid, user_id := uid, action := action,
           details := details }] }

/-- The `RealBrowser` instance state (constructor, lines 84-90): the
session/user ids, the puppeteer browser handle once launched, and the
`isReady` flag. -/
structure RealBrowser where
  sessionId : String
  userId : String
  handle : Option Nat
  isReady : Bool
  deriving DecidableEq, Repr

/-- The value returned by the driver methods (a `{success, url?}` object). -/
structure MethodResult where
  success : Bool
  url : Option String
  deriving DecidableEq, Repr

/-- Models `RealBrowser.initialize` (lines 92-126; the Lean name carries a suffix):
launch puppeteer (outcome `launchOk`, handle `h`), mark the session ready and
upsert its row as `active` at `about:blank`; on failure return `false`. -/
def RealBrowser.initializeB (rb : RealBrowser) (db : Db) (launchOk : Bool)
    (h : Nat) : RealBrowser × Db × Bool :=
  if launchOk then
    let rb' := { rb with handle := some h, isReady := true }
    (rb', updateSessionInDB db rb.sessionId rb.userId "active"
            (some "about:blank") none, true)
  else
    (rb, db, false)

/-- Models `RealBrowser.navigate` (lines 161-170): throws when not ready or when
`page.goto` fails (`gotoOk`); on success it first updates the session row,
then logs the action, then returns.  A thrown error leaves the store
untouched because it propagates before either write. -/
def RealBrowser.navigate (rb : RealBrowser) (db : Db) (url : String)
    (gotoOk : Bool) : Db × Except String MethodResult :=
  if !rb.isReady then (db, Except.error "Browser not ready")
  else if gotoOk then
    let db1 := updateSessionInDB db rb.sessionId rb.userId "active"
                 (some url) (some "navigate")
    let db2 := logAction db1 rb.sessionId rb.userId "navigate" [("url", url)]
    (db2, Except.ok { success := true, url := some url })
  else
    (db, Except.error "navigation failed")

/-- Models `RealBrowser.click` (lines 172-181): `waitForSelector` then `click`
(joint outcome `selOk`), then log. -/
def RealBrowser.click (rb : RealBrowser) (db : Db) (selector : String)
    (selOk : Bool) : Db × Except String MethodResult :=
  if !rb.isReady then (db, Except.error "Browser not ready")
  else if selOk then
    (logAction db rb.sessionId rb.userId "click" [("selector", selector)],
     Except.ok { success := true, url := none })
  else
    (db, Except.error "element not found")

/-- Models `RealBrowser.type` (lines 183-196; the Lean name avoids the keyword-like
source name): resolve the selector, click, Ctrl+A, type, then log.  The
field-level effect of the keystrokes is `TypeSem.realBrowserType`. -/
def RealBrowser.typeInto (rb : RealBrowser) (db : Db) (selector text : String)
    (selOk : Bool) : Db × Except String MethodResult :=
  if !rb.isReady then (db, Except.error "Browser not ready")
  else if selOk then
    (logAction db rb.sessionId rb.userId "type"
       [("selector", selector), ("text", text)],
     Except.ok { success := true, url := none })
  else
    (db, Except.error "element not found")

/-- Models `RealBrowser.scroll` (lines 198-209). -/
def RealBrowser.scroll (rb : RealBrowser) (db : Db) (direction : String)
    (amount : Nat) : Db × Except String MethodResult :=
  if !rb.isReady then (db, Except.error "Browser not ready")
  else
    (logAction db rb.sessionId rb.userId "scroll"
       [("direction", direction), ("amount", toString amount)],
     Except.ok { success := true, url := none })

/-- Models `RealBrowser.wait` (lines 211-219). -/
def RealBrowser.waitFor (rb : RealBrowser) (db : Db) (milliseconds : Nat) :
    Db × Except String MethodResult :=
  if !rb.isReady then (db, Except.error "Browser not ready")
  else
    (logAction db rb.sessionId rb.userId "wait"
       [("milliseconds", toString milliseconds)],
     Except.ok { success := true, url := none })

/-- Models `RealBrowser.takeScreenshot` (lines 221-232): capture (outcome `capOk`)
then log. -/
def RealBrowser.takeScreenshot (rb : RealBrowser) (db : Db) (capOk : Bool) :
    Db × Except String MethodResult :=
  if !rb.isReady then (db, Except.error "Browser not ready")
  else if capOk then
    (logAction db rb.sessionId rb.userId "screenshot" [],
     Except.ok { success := true, url := none })
  else
    (db, Except.error "screenshot failed")

/-- Models `RealBrowser.getPageInfo` (lines 234-249): reads page data, logs
nothing. -/
def RealBrowser.getPageInfo (rb : RealBrowser) (db : Db) :
    Db × Except String MethodResult :=
  if !rb.isReady then (db, Except.error "Browser not ready")
  else (db, Except.ok { success := true, url := none })

/-- Models `RealBrowser.close` (lines 324-335): close the puppeteer browser when one
is held (the returned `Option Nat` is the handle released), null the fields,
and upsert the session row as `closed`. -/
def RealBrowser.close (rb : RealBrowser) (db : Db) :
    RealBrowser × Db × Option Nat :=
  match rb.handle with
  | some h =>
      ({ rb with handle := none, isReady := false },
       updateSessionInDB db rb.sessionId rb.userId "closed" none none, some h)
  | none =>
      (rb, updateSessionInDB db rb.sessionId rb.userId "closed" none none,
       none)

/-- The BROWSER server's global state (lines 78-81 plus the handle/interval
counters of the embedding): the `browserSessions` and `screenshotIntervals`
maps, the allocation record of driver handles (handle, session id), the
handles already released, and the shared store. -/
structure BState where
  browserSessions : List (String × RealBrowser)
  screenshotIntervals : List (String × Nat)
  allocated : List (Nat × String)
  closedHandles : List Nat
  nextHandle : Nat
  nextInterval : Nat
  db : Db
  deriving DecidableEq, Repr

/-- Models `browserSessions.get(sessionId)`. -/
def lookupSession (st : BState) (sid : String) : Option RealBrowser :=
  (st.browserSessions.find? (fun p => p.1 == sid)).map Prod.snd

/-- The driver handles allocated for a session id and not yet released:
the claim "at most one live driver handle per id" is about this list. -/
def liveHandles (st : BState) (sid : String) : List Nat :=
  (st.allocated.filter
      (fun p => p.2 == sid && !(st.closedHandles.contains p.1))).map Prod.fst

/-- The incoming WebSocket message fields (`params`). -/
structure Params where
  url : Option String := none
  selector : Option String := none
  text : Option String := none
  direction : Option String := none
  amount : Option Nat := none
  milliseconds : Option Nat := none
  deriving DecidableEq, Repr

/-- An outgoing WebSocket response: its `type` tag, the `message` field of
init/error responses, and the `result` field of `action_result`. -/
structure WsResp where
  rtype : String
  message : Option String
  result : Option MethodResult
  deriving DecidableEq, Repr

/-- Outcomes of the external world during one message: whether
`puppeteer.launch` succeeds, and whether the page-level operation of the
dispatched action succeeds. -/
structure Env where
  launchOk : Bool
  opOk : Bool
  deriving DecidableEq, Repr

/-- The WebSocket message handler of the BROWSER server (src/unnamed/part_003
lines 342-451).  A missing session is created only for `init`; a missing
session with any other action is answered with an error and nothing runs.
For an existing session the action switch runs the driver method; `init` on
an existing session falls into the switch's default branch, whose throw the
outer catch turns into an `Unknown action` error response.  `ai_action` is
modelled in its unconfigured form (no Gemini key), where
`intelligentAction` throws immediately. -/
def handleMessage (st : BState) (sid uid action : String) (p : Params)
    (env : Env) : BState × WsResp :=
  match lookupSession st sid with
  | none =>
      if action == "init" then
        let rb : RealBrowser :=
          { sessionId := sid, userId := uid, handle := none, isReady := false }
        match rb.initializeB st.db env.launchOk st.nextHandle with
        | (rb', db', true) =>
            ({ st with
                browserSessions := st.browserSessions ++ [(sid, rb')],
                screenshotIntervals :=
                  st.screenshotIntervals ++ [(sid, st.nextInterval)],
                allocated := st.allocated ++ [(st.nextHandle, sid)],
                nextHandle := st.nextHandle + 1,
                nextInterval := st.nextInterval + 1,
                db := db' },
             { rtype := "init_success",
               message := some "Browser initialized successfully",
               result := none })
        | (_, db', false) =>
            ({ st with db := db' },
             { rtype := "error",
               message := some "Failed to initialize browser",
               result := none })
      else
        (st,
         { rtype := "error",
           message := some "Session not found. Initialize first.",
           result := none })
  | some session =>
      let res : Db × Except String MethodResult :=
        match action with
        | "navigate" => session.navigate st.db (p.url.getD "") env.opOk
        | "click" => session.click st.db (p.selector.getD "") env.opOk
        | "type" =>
            session.typeInto st.db (p.selector.getD "") (p.text.getD "")
              env.opOk
        | "scroll" =>
            session.scroll st.db (p.direction.getD "") (p.amount.getD 500)
        | "wait" => session.waitFor st.db (p.milliseconds.getD 0)
        | "screenshot" => session.takeScreenshot st.db env.opOk
        | "page_info" => session.getPageInfo st.db
        | "ai_action" => (st.db, Except.error "Gemini API not configured")
        | k => (st.db, Except.error ("Unknown action: " ++ k))
      match res with
      | (db', Except.ok r) =>
          ({ st with db := db' },
           { rtype := "action_result", message := none, result := some r })
      | (db', Except.error e) =>
          ({ st with db := db' },
           { rtype := "error", message := some e, result := none })

/-- Response of the close endpoint. -/
structure CloseResp where
  success : Bool
  message : Option String
  deriving DecidableEq, Repr

/-- Models `app.post('/sessions/:sessionId/close')` (lines 513-534): when the
session exists, close it, drop it from both maps and record the released
handle; when it does not, nothing happens and the endpoint still answers
`{success: true, message: 'Session closed'}`. -/
def closeSessionEndpoint (st : BState) (sid : String) : BState × CloseResp :=
  match lookupSession st sid with
  | some session =>
      let (_, db', closedH) := session.close st.db
      ({ st with
          browserSessions := st.browserSessions.filter (fun p => p.1 != sid),
          screenshotIntervals :=
            st.screenshotIntervals.filter (fun p => p.1 != sid),
          closedHandles :=
            match closedH with
            | some h => st.closedHandles ++ [h]
            | none => st.closedHandles,
          db := db' },
       { success := true, message := some "Session closed" })
  | none =>
      (st, { success := true, message := some "Session closed" })

/-- The empty server state. -/
def emptyState : BState :=
  { browserSessions := [], screenshotIntervals := [], allocated := [],
    closedHandles := [], nextHandle := 0, nextInterval := 0,
    db := { browser_sessions := [], browser_actions := [] } }

end BrowserSrv

namespace CloudWs

/-- The per-connection mutable state of the CloudAI websocket edge function
(`src/supabase/functions/cloudai-websocket/index.ts` lines 25-27), with a
record of the browser handles already closed. -/
structure CState where
  browser : Option Nat
  page : Option Nat
  screenshotInterval : Option Nat
  closedBrowsers : List Nat
  deriving DecidableEq, Repr

/-- The `stop_response` message. -/
structure StopResp where
  rtype : String
  success : Bool
  message : Option String
  deriving DecidableEq, Repr

/-- The `stop` case of `socket.onmessage` (lines 246-261): clear the
screenshot interval if any, close and null the browser and page if any, and
answer `{type: 'stop_response', success: true}`. -/
def handleStop (st : CState) : CState × StopResp :=
  let st1 := { st with screenshotInterval := none }
  let st2 :=
    match st1.browser with
    | some b =>
        { st1 with browser := none, page := none,
                   closedBrowsers := st1.closedBrowsers ++ [b] }
    | none => st1
  (st2,
   { rtype := "stop_response", success := true,
     message := some "Browser stopped" })

end CloudWs

namespace Automation

/-- A `browser_sessions` row as the browser-automation edge function sees it
(`src/supabase/functions/browser-automation/index.ts`). -/
structure ARow where
  id : String
  status : String
  current_url : Option String
  last_action : Option String
  deriving DecidableEq, Repr

/-- The sessions table touched by the edge function's handlers. -/
structure AState where
  browser_sessions : List ARow
  deriving DecidableEq, Repr

/-- Supabase `update(...).eq('id', sid)`: rewrite every row whose id
matches. -/
def updateRow (st : AState) (sid : String) (f : ARow → ARow) : AState :=
  { browser_sessions :=
      st.browser_sessions.map (fun r => if r.id == sid then f r else r) }

/-- The stored status of a session id. -/
def statusOf (st : AState) (sid : String) : Option String :=
  (st.browser_sessions.find? (fun r => r.id == sid)).map ARow.status

/-- The JSON body answered by the handlers, flattened: the top-level
`success`, the `status` field (for init, the nested `result.status`), the
provenance `source` tag, and any recorded error message. -/
structure AResp where
  success : Bool
  status : Option String
  source : Option String
  error : Option String
  deriving DecidableEq, Repr

/-- Models `handlePauseSession` (lines 369-390): set the stored status to `paused`
and answer success.  No driver is touched and no dispatch gate is
installed. -/
def handlePauseSession (st : AState) (sid : String) : AState × AResp :=
  (updateRow st sid (fun r => { r with status := "paused" }),
   { success := true, status := some "paused", source := none, error := none })

/-- Models `handleResumeSession` (lines 392-413): set the stored status back to
`active`. -/
def handleResumeSession (st : AState) (sid : String) : AState × AResp :=
  (updateRow st sid (fun r => { r with status := "active" }),
   { success := true, status := some "active", source := none, error := none })

/-- Models `handleInitBrowser` (lines 128-178): probe the BROWSER server's health
endpoint (`healthOk`); reachable → success tagged `real_browser`; on any
failure the catch still answers success, tagged `fallback`, with the failure
kept in the result's `error` field and the result status `ready` in both
branches. -/
def handleInitBrowser (sid : String) (healthOk : Bool) : AResp :=
  if healthOk then
    { success := true, status := some "ready", source := some "real_browser",
      error := none }
  else
    { success := true, status := some "ready", source := some "fallback",
      error := some "Browser server not accessible" }

/-- Models `handleNavigate` (lines 180-222): post the action to the BROWSER server
(`fetchOk`); on success update the stored url and last action and answer a
`real_browser`-tagged success; on failure throw `Navigation failed`, which
the top-level catch turns into a status-500 `{success: false}` response.
The handler never reads the session's stored status. -/
def handleNavigate (st : AState) (sid url : String) (fetchOk : Bool) :
    AState × AResp :=
  if fetchOk then
    (updateRow st sid
       (fun r => { r with current_url := some url,
                          last_action := some "navigate" }),
     { success := true, status := none, source := some "real_browser",
       error := none })
  else
    (st,
     { success := false, status := none, source := none,
       error := some "Navigation failed: Browser server error" })

/-- Models `handleClick` (lines 224-256): same shape as `handleNavigate` but with no
metadata update; a failure throws `Click failed`. -/
def handleClick (st : AState) (sid selector : String) (fetchOk : Bool) :
    AState × AResp :=
  if fetchOk then
    (st,
     { success := true, status := none, source := some "real_browser",
       error := none })
  else
    (st,
     { success := false, status := none, source := none,
       error := some "Click failed: Browser server error" })

/-- Models `handleType` (lines 258-290): post the `type` action to the
BROWSER server (`fetchOk`), with no metadata update; on success answer a
`real_browser`-tagged success, on failure throw `Type failed`, which the
top-level catch turns into a status-500 `{success: false}` response.  The
handler never reads the session's stored status. -/
def handleType (st : AState) (sid selector text : String) (fetchOk : Bool) :
    AState × AResp :=
  if fetchOk then
    (st,
     { success := true, status := none, source := some "real_browser",
       error := none })
  else
    (st,
     { success := false, status := none, source := none,
       error := some "Type failed: Browser server error" })

/-- Models `handleAIAction` (lines 335-367): post the `ai_action` request to
the BROWSER server (`fetchOk`); on success answer a `real_browser`-tagged
success, on failure throw `AI action failed`, which the top-level catch
turns into a status-500 `{success: false}` response. -/
def handleAIAction (st : AState) (sid instruction : String) (fetchOk : Bool) :
    AState × AResp :=
  if fetchOk then
    (st,
     { success := true, status := none, source := some "real_browser",
       error := none })
  else
    (st,
     { success := false, status := none, source := none,
       error := some "AI action failed: Browser server error" })

/-- Models `handleScreenshot` (lines 292-333): on any failure the catch answers a
mock screenshot as a success tagged `fallback`. -/
def handleScreenshot (sid : String) (fetchOk : Bool) : AResp :=
  if fetchOk then
    { success := true, status := none, source := some "real_browser",
      error := none }
  else
    { success := true, status := none, source := some "fallback",
      error := none }

end Automation

namespace BrowserSrv

/-- The session object as it stands right after a successful `init`. -/
def readyBrowser (sid uid : String) (h : Nat) : RealBrowser :=
  { sessionId := sid, userId := uid, handle := some h, isReady := true }

/-- The server state right after a successful first `init` for `sid`:
the session and its screenshot interval are registered, one driver handle is
allocated, and the session row is upserted as `active`. -/
def afterInit (st : BState) (sid uid : String) : BState :=
  { st with
      browserSessions :=
        st.browserSessions ++ [(sid, readyBrowser sid uid st.nextHandle)],
      screenshotIntervals :=
        st.screenshotIntervals ++ [(sid, st.nextInterval)],
      allocated := st.allocated ++ [(st.nextHandle, sid)],
      nextHandle := st.nextHandle + 1,
      nextInterval := st.nextInterval + 1,
      db := updateSessionInDB st.db sid uid "active" (some "about:blank") none }

/-- A ready session bound to handle 0, for concrete scenarios. -/
def sampleBrowser : RealBrowser :=
  { sessionId := "s1", userId := "u1", handle := some 0, isReady := true }

/-- An empty external store. -/
def emptyDb : Db :=
  { browser_sessions := [], browser_actions := [] }

end BrowserSrv

namespace CloudWs

/-- A connection state holding a live browser, page and stream. -/
def sampleC : CState :=
  { browser := some 3, page := some 4, screenshotInterval := some 5,
    closedBrowsers := [] }

end CloudWs

namespace ServerJs

/-- A concrete frame, for broadcast scenarios. -/
def sampleFrame : Frame :=
  { data := "img", url := "https://google.com", timestamp := 0 }

end ServerJs

namespace Automation

/-- A sessions table holding one active session `s1`. -/
def sampleSessions : AState :=
  { browser_sessions :=
      [{ id := "s1", status := "active", current_url := none,
         last_action := none }] }

end Automation

/-! Helper lemmas -/

theorem find_append_one {α : Type} (l : List α) (p : α → Bool) (a : α)
    (h : l.find? p = none) (ha : p a = true) : (l ++ [a]).find? p = some a := by
  induction l with
  | nil => simp [List.find?, ha]
  | cons x xs ih =>
    simp only [List.cons_append, List.find?_cons] at h ⊢
    cases hx : p x with
    | true => rw [hx] at h; simp at h
    | false => rw [hx] at h; exact ih h

theorem filter_and_eq_nil {α : Type} (l : List α) (p q : α → Bool)
    (h : l.filter p = []) : l.filter (fun x => p x && q x) = [] := by
  induction l with
  | nil => rfl
  | cons a l ih =>
    simp only [List.filter_cons] at h ⊢
    cases hp : p a with
    | true => rw [hp] at h; simp at h
    | false =>
      rw [hp] at h
      simp only [Bool.false_and, if_neg Bool.false_ne_true] at h ⊢
      exact ih h

theorem find_filter_ne {α : Type} (l : List (String × α)) (sid : String) :
    (l.filter (fun p => p.1 != sid)).find? (fun p => p.1 == sid) = none := by
  induction l with
  | nil => rfl
  | cons a l ih =>
    by_cases ha : a.1 = sid
    · have h1 : (a.1 != sid) = false := by simp [bne, ha]
      simp only [List.filter_cons, h1]
      rw [if_neg (by decide)]
      exact ih
    · have h1 : (a.1 != sid) = true := by simp [bne, ha]
      have h2 : (a.1 == sid) = false := by simp [ha]
      simp only [List.filter_cons, h1]
      rw [if_pos trivial]
      simp only [List.find?_cons, h2]
      exact ih

theorem find_upsertRows (row : BrowserSrv.SessionRow)
    (l : List BrowserSrv.SessionRow) :
    (BrowserSrv.upsertRows row l).find? (fun r => r.id == row.id) = some row := by
  induction l with
  | nil =>
    simp [BrowserSrv.upsertRows, List.find?_cons]
  | cons r rs ih =>
    unfold BrowserSrv.upsertRows
    cases h : (r.id == row.id) with
    | true =>
      simp [List.find?_cons]
    | false =>
      simp only [if_neg Bool.false_ne_true, List.find?_cons, h, cond_false]
      exact ih

theorem find_updateRowAux (l : List Automation.ARow) (sid : String)
    (f : Automation.ARow → Automation.ARow)
    (hf : ∀ r, (f r).id = r.id) :
    (l.map (fun r => if r.id == sid then f r else r)).find?
        (fun r => r.id == sid)
      = (l.find? (fun r => r.id == sid)).map f := by
  induction l with
  | nil => rfl
  | cons a l ih =>
    simp only [List.map_cons, List.find?_cons]
    cases ha : (a.id == sid) with
    | true =>
      have hfa : ((f a).id == sid) = true := by rw [hf a]; exact ha
      simp [ha, hfa]
    | false =>
      simp only [ha, if_neg Bool.false_ne_true, cond_false]
      exact ih

theorem typeKeys_no_selection (cs t : List Char) :
    TypeSem.typeKeys { content := cs, selAll := false } t
      = { content := cs ++ t, selAll := false } := by
  induction t generalizing cs with
  | nil => simp [TypeSem.typeKeys]
  | cons c ts ih =>
    show TypeSem.typeKeys
        (TypeSem.typeChar { content := cs, selAll := false } c) ts = _
    rw [show TypeSem.typeChar { content := cs, selAll := false } c
          = { content := cs ++ [c], selAll := false } from rfl]
    rw [ih (cs ++ [c])]
    simp

theorem handleMessage_init_fresh (st : BrowserSrv.BState) (sid uid : String)
    (p : BrowserSrv.Params) (env : BrowserSrv.Env)
    (h : BrowserSrv.lookupSession st sid = none) (hl : env.launchOk = true) :
    BrowserSrv.handleMessage st sid uid "init" p env =
      (BrowserSrv.afterInit st sid uid,
       { rtype := "init_success",
         message := some "Browser initialized successfully",
         result := none }) := by
  unfold BrowserSrv.handleMessage
  rw [h, hl]
  rfl

theorem handleMessage_init_existing (st : BrowserSrv.BState) (sid uid : String)
    (p : BrowserSrv.Params) (env : BrowserSrv.Env) (rb : BrowserSrv.RealBrowser)
    (h : BrowserSrv.lookupSession st sid = some rb) :
    BrowserSrv.handleMessage st sid uid "init" p env =
      (st, { rtype := "error", message := some "Unknown action: init",
             result := none }) := by
  unfold BrowserSrv.handleMessage
  rw [h]
  rfl

theorem lookup_afterInit (st : BrowserSrv.BState) (sid uid : String)
    (h : BrowserSrv.lookupSession st sid = none) :
    BrowserSrv.lookupSession (BrowserSrv.afterInit st sid uid) sid
      = some (BrowserSrv.readyBrowser sid uid st.nextHandle) := by
  unfold BrowserSrv.lookupSession at h ⊢
  have hf : st.browserSessions.find? (fun q => q.1 == sid) = none := by
    cases hx : st.browserSessions.find? (fun q => q.1 == sid) with
    | none => rfl
    | some v => rw [hx] at h; simp at h
  show ((BrowserSrv.afterInit st sid uid).browserSessions.find?
      (fun q => q.1 == sid)).map Prod.snd = _
  rw [show (BrowserSrv.afterInit st sid uid).browserSessions
        = st.browserSessions
            ++ [(sid, BrowserSrv.readyBrowser sid uid st.nextHandle)] from rfl]
  rw [find_append_one _ _ _ hf (by simp)]
  rfl

theorem liveHandles_afterInit (st : BrowserSrv.BState) (sid uid : String)
    (halloc : st.allocated.filter (fun q => q.2 == sid) = [])
    (hfresh : st.closedHandles.contains st.nextHandle = false) :
    BrowserSrv.liveHandles (BrowserSrv.afterInit st sid uid) sid
      = [st.nextHandle] := by
  unfold BrowserSrv.liveHandles
  rw [show (BrowserSrv.afterInit st sid uid).allocated
        = st.allocated ++ [(st.nextHandle, sid)] from rfl]
  rw [show (BrowserSrv.afterInit st sid uid).closedHandles
        = st.closedHandles from rfl]
  rw [List.filter_append]
  rw [filter_and_eq_nil _ _ _ halloc]
  have hm : st.nextHandle ∉ st.closedHandles := by simpa using hfresh
  simp [List.filter_cons, hm]

theorem closeSession_missing (st : BrowserSrv.BState) (sid : String)
    (h : BrowserSrv.lookupSession st sid = none) :
    BrowserSrv.closeSessionEndpoint st sid =
      (st, { success := true, message := some "Session closed" }) := by
  unfold BrowserSrv.closeSessionEndpoint
  rw [h]

theorem lookup_after_close (st : BrowserSrv.BState) (sid : String) :
    BrowserSrv.lookupSession (BrowserSrv.closeSessionEndpoint st sid).1 sid
      = none := by
  cases h : BrowserSrv.lookupSession st sid with
  | none => rw [closeSession_missing st sid h]; exact h
  | some rb =>
    unfold BrowserSrv.closeSessionEndpoint
    rw [h]
    show ((st.browserSessions.filter (fun q => q.1 != sid)).find?
        (fun q => q.1 == sid)).map Prod.snd = none
    rw [find_filter_ne]
    rfl

/-! Claim theorems -/

/-- C5: the Instruction Translator's heuristic fallback is total and
deterministic — whenever the external inference service fails or returns
unparseable output, `processCommand` returns a structurally valid Action
for every input instruction (including the empty string and garbage text)
and never throws or propagates an error. -/
theorem c5_translator_fallback_total (m : String) (o : Translator.AIOutcome)
    (h : o = Translator.AIOutcome.serviceError ∨
         o = Translator.AIOutcome.output none) :
    Translator.validAction (Translator.processCommand m o) = true := by
  rcases h with h | h <;> subst h
  · rfl
  · show Translator.validAction (Translator.fallbackParse m) = true
    unfold Translator.fallbackParse
    split
    · rfl
    · split
      · split <;> rfl
      · rfl

/-- Witness for C5 at the empty instruction and unparseable model output. -/
theorem c5_translator_fallback_total_witness :
    (Translator.AIOutcome.output (none : Option Translator.AIAction)
        = Translator.AIOutcome.serviceError ∨
     Translator.AIOutcome.output (none : Option Translator.AIAction)
        = Translator.AIOutcome.output none)
  ∧ Translator.validAction
      (Translator.processCommand "" (Translator.AIOutcome.output none))
      = true :=
  ⟨Or.inr rfl, c5_translator_fallback_total "" _ (Or.inr rfl)⟩

/-- C8 counterexample: the CloudAI server's `type` case (`executeAction`,
`page.type` with no clearing) typed into a field already holding "old"
leaves "oldnew", not "new" — that driver does not clear existing content
before inserting the new text. -/
theorem c8_server_type_concatenates :
    (TypeSem.serverType { content := "old".data, selAll := false }
        "new".data).content = "oldnew".data
  ∧ (TypeSem.serverType { content := "old".data, selAll := false }
        "new".data).content ≠ "new".data := by
  exact ⟨rfl, by decide⟩

/-- C8 (amended): only the BROWSER server's `RealBrowser.type` clears the
field first (click, select-all, then type): typing any nonempty text leaves
the field holding exactly that text; the CloudAI server's `executeAction`
`type` case types without clearing, so with no active selection the new text
is appended to the prior content. -/
theorem c8_type_clears_realbrowser_only (f : TypeSem.TextField)
    (t : List Char) (ht : t ≠ []) :
    (TypeSem.realBrowserType f t).content = t
  ∧ (f.selAll = false →
      (TypeSem.serverType f t).content = f.content ++ t) := by
  constructor
  · obtain ⟨c, ts, rfl⟩ := List.exists_cons_of_ne_nil ht
    show (TypeSem.typeKeys
        (TypeSem.typeChar { content := f.content, selAll := true } c)
        ts).content = _
    rw [show TypeSem.typeChar { content := f.content, selAll := true } c
          = { content := [c], selAll := false } from rfl]
    rw [typeKeys_no_selection]
    rfl
  · intro hsel
    obtain ⟨cs, sa⟩ := f
    have hsa : sa = false := hsel
    subst hsa
    show (TypeSem.typeKeys { content := cs, selAll := false } t).content = _
    rw [typeKeys_no_selection]

/-- Witness for C8 at the field "old" and text "new". -/
theorem c8_type_clears_realbrowser_only_witness :
    ("new".data ≠ ([] : List Char))
  ∧ (TypeSem.realBrowserType { content := "old".data, selAll := false }
        "new".data).content = "new".data :=
  ⟨by decide,
   (c8_type_clears_realbrowser_only
      { content := "old".data, selAll := false } "new".data (by decide)).1⟩

/-- C2: dispatching any action on a session id for which `init` has not
succeeded fails with a session-not-ready error and no browser action is
executed: the BROWSER server answers `Session not found. Initialize first.`
with the whole state (hence the history store) untouched, and the CloudAI
server's `executeAction` with no page reports `Browser not initialized`. -/
theorem c2_dispatch_before_init_fails (st : BrowserSrv.BState)
    (sid uid action : String) (p : BrowserSrv.Params) (env : BrowserSrv.Env)
    (hs : BrowserSrv.lookupSession st sid = none) (ha : action ≠ "init") :
    BrowserSrv.handleMessage st sid uid action p env =
      (st, { rtype := "error",
             message := some "Session not found. Initialize first.",
             result := none })
  ∧ ∀ (a : Translator.AIAction) (opOk : Bool),
      ServerJs.executeAction none a opOk =
        { success := false, message := none,
          error := some "Browser not initialized" } := by
  constructor
  · unfold BrowserSrv.handleMessage
    rw [hs]
    have hb : (action == "init") = false := by
      simp only [beq_eq_false_iff_ne, ne_eq]
      exact ha
    rw [hb]
    rfl
  · intro a opOk
    rfl

/-- Witness for C2: a navigate dispatched on the empty server state. -/
theorem c2_dispatch_before_init_fails_witness :
    (BrowserSrv.lookupSession BrowserSrv.emptyState "s1" = none
     ∧ ("navigate" : String) ≠ "init")
  ∧ BrowserSrv.handleMessage BrowserSrv.emptyState "s1" "u1" "navigate" {}
      { launchOk := true, opOk := true } =
      (BrowserSrv.emptyState,
       { rtype := "error",
         message := some "Session not found. Initialize first.",
         result := none }) :=
  ⟨⟨rfl, by decide⟩,
   (c2_dispatch_before_init_fails BrowserSrv.emptyState "s1" "u1" "navigate"
      {} { launchOk := true, opOk := true } rfl (by decide)).1⟩

/-- C4 counterexample: with driver acquisition forced to fail,
`handleInitBrowser` still answers success — but the result status is
`ready`, not `active` — and a subsequent navigate against the unreachable
server answers `{success: false}` with no provenance tag at all, not an
ActionResult tagged as simulated. -/
theorem c4_fallback_init_then_navigate_fails :
    (Automation.handleInitBrowser "s2" false).success = true
  ∧ (Automation.handleInitBrowser "s2" false).status = some "ready"
  ∧ (Automation.handleNavigate Automation.sampleSessions "s2"
        "https://example.com" false).2 =
      { success := false, status := none, source := none,
        error := some "Navigation failed: Browser server error" } :=
  ⟨rfl, rfl, rfl⟩

/-- C4 (amended): on driver-acquisition failure `init` still answers
success, tagged `source: fallback`, with the failure recorded in the error
field (not surfaced as a hard error) and result status `ready`; screenshot
requests likewise degrade to a fallback-tagged success; but the other
subsequent actions — navigate, click, type and ai_action — against the
unreachable server all fail hard with `success: false` and carry no
provenance tag at all (no simulated/fallback source), and none of them
touches the stored session state. -/
theorem c4_fallback_init_success_amended (sid url sel text instr : String)
    (st : Automation.AState) :
    (Automation.handleInitBrowser sid false).success = true
  ∧ (Automation.handleInitBrowser sid false).source = some "fallback"
  ∧ (Automation.handleInitBrowser sid false).error.isSome = true
  ∧ (Automation.handleScreenshot sid false).success = true
  ∧ (Automation.handleScreenshot sid false).source = some "fallback"
  ∧ (Automation.handleNavigate st sid url false).2.success = false
  ∧ (Automation.handleNavigate st sid url false).2.source = none
  ∧ (Automation.handleNavigate st sid url false).1 = st
  ∧ (Automation.handleClick st sid sel false).2.success = false
  ∧ (Automation.handleClick st sid sel false).2.source = none
  ∧ (Automation.handleClick st sid sel false).1 = st
  ∧ (Automation.handleType st sid sel text false).2.success = false
  ∧ (Automation.handleType st sid sel text false).2.source = none
  ∧ (Automation.handleType st sid sel text false).1 = st
  ∧ (Automation.handleAIAction st sid instr false).2.success = false
  ∧ (Automation.handleAIAction st sid instr false).2.source = none
  ∧ (Automation.handleAIAction st sid instr false).1 = st :=
  ⟨rfl, rfl, rfl, rfl, rfl, rfl, rfl, rfl, rfl, rfl, rfl, rfl, rfl, rfl,
   rfl, rfl, rfl⟩

/-- C1 counterexample: in the BROWSER server, a first `init` for a fresh
session id succeeds, but an immediately repeated `init` on the same id is
answered with `Unknown action: init` — an error, not the current state with
status active. -/
theorem c1_second_init_errors :
    (BrowserSrv.handleMessage BrowserSrv.emptyState "s1" "u1" "init" {}
        { launchOk := true, opOk := true }).2.rtype = "init_success"
  ∧ (BrowserSrv.handleMessage
        (BrowserSrv.handleMessage BrowserSrv.emptyState "s1" "u1" "init" {}
            { launchOk := true, opOk := true }).1
        "s1" "u1" "init" {} { launchOk := true, opOk := true }).2 =
      { rtype := "error", message := some "Unknown action: init",
        result := none } :=
  ⟨rfl, rfl⟩

/-- C1 (amended): two consecutive `init` calls on the same fresh session id
never allocate two live driver handles — after both calls exactly one live
handle is bound to the id — but the call is not idempotent in its response:
the second call leaves the state unchanged and answers the error
`Unknown action: init` instead of returning the current active state. -/
theorem c1_init_no_double_handle (st : BrowserSrv.BState) (sid uid : String)
    (p : BrowserSrv.Params) (env : BrowserSrv.Env)
    (hs : BrowserSrv.lookupSession st sid = none)
    (hl : env.launchOk = true)
    (halloc : st.allocated.filter (fun q => q.2 == sid) = [])
    (hfresh : st.closedHandles.contains st.nextHandle = false) :
    (BrowserSrv.handleMessage st sid uid "init" p env).2.rtype
      = "init_success"
  ∧ BrowserSrv.liveHandles
      (BrowserSrv.handleMessage st sid uid "init" p env).1 sid
      = [st.nextHandle]
  ∧ BrowserSrv.handleMessage
      (BrowserSrv.handleMessage st sid uid "init" p env).1 sid uid "init"
      p env
      = ((BrowserSrv.handleMessage st sid uid "init" p env).1,
         { rtype := "error", message := some "Unknown action: init",
           result := none }) := by
  rw [handleMessage_init_fresh st sid uid p env hs hl]
  refine ⟨rfl, ?_, ?_⟩
  · exact liveHandles_afterInit st sid uid halloc hfresh
  · exact handleMessage_init_existing _ sid uid p env _
      (lookup_afterInit st sid uid hs)

/-- Witness for C1 at the empty server state and session "s1". -/
theorem c1_init_no_double_handle_witness :
    BrowserSrv.lookupSession BrowserSrv.emptyState "s1" = none
  ∧ BrowserSrv.liveHandles
      (BrowserSrv.handleMessage BrowserSrv.emptyState "s1" "u1" "init" {}
          { launchOk := true, opOk := true }).1 "s1" = [0] :=
  ⟨rfl,
   (c1_init_no_double_handle BrowserSrv.emptyState "s1" "u1" {}
      { launchOk := true, opOk := true } rfl rfl rfl rfl).2.1⟩

/-- C3 counterexample: after `handlePauseSession` stores status `paused` for
session "s1", a navigate dispatched for "s1" still succeeds (`success: true`
tagged `real_browser`) — it is not rejected with a `SessionPaused` error. -/
theorem c3_paused_dispatch_succeeds :
    Automation.statusOf
        (Automation.handlePauseSession Automation.sampleSessions "s1").1 "s1"
      = some "paused"
  ∧ (Automation.handleNavigate
        (Automation.handlePauseSession Automation.sampleSessions "s1").1
        "s1" "https://example.com" true).2 =
      { success := true, status := none, source := some "real_browser",
        error := none } :=
  ⟨rfl, rfl⟩

/-- C3 (amended): `pause` and `resume` toggle the stored status between
`paused` and `active` (the edge function holds no driver, so none is
released), but no dispatch gate exists: `handleNavigate`'s response is
independent of the stored session state, so a paused session is navigated
exactly like an active one rather than failing with `SessionPaused`. -/
theorem c3_pause_resume_no_gate (st st2 : Automation.AState)
    (sid url : String) (ok : Bool)
    (h : (st.browser_sessions.find? (fun r => r.id == sid)).isSome = true) :
    Automation.statusOf (Automation.handlePauseSession st sid).1 sid
      = some "paused"
  ∧ Automation.statusOf
      (Automation.handleResumeSession
          (Automation.handlePauseSession st sid).1 sid).1 sid
      = some "active"
  ∧ (Automation.handleNavigate st sid url ok).2
      = (Automation.handleNavigate st2 sid url ok).2 := by
  obtain ⟨r, hr⟩ := Option.isSome_iff_exists.mp h
  refine ⟨?_, ?_, ?_⟩
  · show ((Automation.handlePauseSession st sid).1.browser_sessions.find?
        (fun q => q.id == sid)).map Automation.ARow.status = _
    rw [show (Automation.handlePauseSession st sid).1.browser_sessions
          = st.browser_sessions.map
              (fun q => if q.id == sid
                then { q with status := "paused" } else q) from rfl]
    rw [find_updateRowAux st.browser_sessions sid
        (fun q => { q with status := "paused" }) (fun q => rfl), hr]
    rfl
  · show ((Automation.handleResumeSession
        (Automation.handlePauseSession st sid).1 sid).1.browser_sessions.find?
          (fun q => q.id == sid)).map Automation.ARow.status = _
    rw [show (Automation.handleResumeSession
          (Automation.handlePauseSession st sid).1 sid).1.browser_sessions
        = (Automation.handlePauseSession st sid).1.browser_sessions.map
            (fun q => if q.id == sid
              then { q with status := "active" } else q) from rfl]
    rw [find_updateRowAux (Automation.handlePauseSession st sid).1.browser_sessions
        sid (fun q => { q with status := "active" }) (fun q => rfl)]
    rw [show (Automation.handlePauseSession st sid).1.browser_sessions
          = st.browser_sessions.map
              (fun q => if q.id == sid
                then { q with status := "paused" } else q) from rfl]
    rw [find_updateRowAux st.browser_sessions sid
        (fun q => { q with status := "paused" }) (fun q => rfl), hr]
    rfl
  · cases ok <;> rfl

/-- Witness for C3 at the one-session table. -/
theorem c3_pause_resume_no_gate_witness :
    (Automation.sampleSessions.browser_sessions.find?
        (fun r => r.id == "s1")).isSome = true
  ∧ Automation.statusOf
      (Automation.handleResumeSession
          (Automation.handlePauseSession Automation.sampleSessions "s1").1
          "s1").1 "s1" = some "active" :=
  ⟨rfl,
   (c3_pause_resume_no_gate Automation.sampleSessions
      Automation.sampleSessions "s1" "https://example.com" true rfl).2.1⟩

/-- C6 counterexample: with a live page and one open client, a capture of
duration two ticks starts at the first tick and, while it is still in
flight, the next tick starts a second one: after two ticks two captures
are in flight simultaneously instead of the second tick being skipped. -/
theorem c6_overlapping_captures :
    ServerJs.streamStep ServerJs.sampleState
        (ServerJs.streamStep ServerJs.sampleState [] 2) 2 = [2, 1]
  ∧ 2 ≤ (ServerJs.streamStep ServerJs.sampleState
        (ServerJs.streamStep ServerJs.sampleState [] 2) 2).length :=
  ⟨rfl, by decide⟩

/-- C6 (amended): the interval callback's guard (`tickCaptures`) looks only
at the page and the client count, never at a still-running capture, so
whenever the guard holds and a capture lasts at least two ticks, the very
next tick starts another capture and at least two are in flight at once. -/
theorem c6_no_inflight_guard (st : ServerJs.ServerState) (inFlight : List Nat)
    (dur : Nat) (hc : ServerJs.tickCaptures st = true) (hd : 2 ≤ dur) :
    2 ≤ (ServerJs.streamStep st (ServerJs.streamStep st inFlight dur)
          dur).length := by
  unfold ServerJs.streamStep
  rw [hc]
  have h1 : ((dur - 1) != 0) = true := by
    have h2 : dur - 1 ≠ 0 := by omega
    simpa using h2
  simp only [if_pos trivial, List.map_cons, List.filter_cons, h1,
    List.length_cons]
  omega

/-- Witness for C6 at the sample state and a two-tick capture. -/
theorem c6_no_inflight_guard_witness :
    ServerJs.tickCaptures ServerJs.sampleState = true
  ∧ 2 ≤ 2
  ∧ 2 ≤ (ServerJs.streamStep ServerJs.sampleState
        (ServerJs.streamStep ServerJs.sampleState [] 2) 2).length :=
  ⟨rfl, le_refl 2,
   c6_no_inflight_guard ServerJs.sampleState [] 2 rfl (le_refl 2)⟩

/-- C7 counterexample: a dispatched navigate whose driver execution fails
appends nothing to the external history store — the thrown error propagates
before `logAction`, so the Action/ActionResult pair is not recorded even
though the claim requires it regardless of success. -/
theorem c7_failed_action_not_logged :
    BrowserSrv.RealBrowser.navigate BrowserSrv.sampleBrowser
        BrowserSrv.emptyDb "https://example.com" false
      = (BrowserSrv.emptyDb, Except.error "navigation failed")
  ∧ BrowserSrv.emptyDb.browser_actions = [] :=
  ⟨rfl, rfl⟩

/-- C7 (amended): the Action is appended to the external history store
exactly when driver execution succeeds: a successful navigate appends one
`browser_actions` row and updates the session row (current URL, last
action); a failing navigate or click leaves the store untouched and
propagates the error; a successful click appends its row. -/
theorem c7_history_on_success_only (rb : BrowserSrv.RealBrowser)
    (db : BrowserSrv.Db) (url sel : String) (hr : rb.isReady = true) :
    (BrowserSrv.RealBrowser.navigate rb db url true).1.browser_actions
      = db.browser_actions ++
        [{ session_id := rb.sessionId, user_id := rb.userId,
           action := "navigate", details := [("url", url)] }]
  ∧ (BrowserSrv.RealBrowser.navigate rb db url true).2
      = Except.ok { success := true, url := some url }
  ∧ BrowserSrv.findSessionRow
      (BrowserSrv.RealBrowser.navigate rb db url true).1 rb.sessionId
      = some { id := rb.sessionId, user_id := rb.userId, status := "active",
               current_url := some url, last_action := some "navigate" }
  ∧ BrowserSrv.RealBrowser.navigate rb db url false
      = (db, Except.error "navigation failed")
  ∧ (BrowserSrv.RealBrowser.click rb db sel true).1.browser_actions
      = db.browser_actions ++
        [{ session_id := rb.sessionId, user_id := rb.userId,
           action := "click", details := [("selector", sel)] }]
  ∧ BrowserSrv.RealBrowser.click rb db sel false
      = (db, Except.error "element not found") := by
  have hnr : (!rb.isReady) = false := by rw [hr]; rfl
  unfold BrowserSrv.RealBrowser.navigate BrowserSrv.RealBrowser.click
  rw [hnr]
  refine ⟨rfl, rfl, ?_, rfl, rfl, rfl⟩
  · show (BrowserSrv.upsertRows
        { id := rb.sessionId, user_id := rb.userId, status := "active",
          current_url := some url, last_action := some "navigate" }
        db.browser_sessions).find? (fun r => r.id == rb.sessionId)
      = some { id := rb.sessionId, user_id := rb.userId, status := "active",
               current_url := some url, last_action := some "navigate" }
    exact find_upsertRows
      { id := rb.sessionId, user_id := rb.userId, status := "active",
        current_url := some url, last_action := some "navigate" }
      db.browser_sessions

/-- Witness for C7 at the sample ready session and empty store. -/
theorem c7_history_on_success_only_witness :
    BrowserSrv.sampleBrowser.isReady = true
  ∧ (BrowserSrv.RealBrowser.navigate BrowserSrv.sampleBrowser
        BrowserSrv.emptyDb "https://example.com" true).1.browser_actions
      = BrowserSrv.emptyDb.browser_actions ++
        [{ session_id := "s1", user_id := "u1",
           action := "navigate",
           details := [("url", "https://example.com")] }] :=
  ⟨rfl,
   (c7_history_on_success_only BrowserSrv.sampleBrowser BrowserSrv.emptyDb
      "https://example.com" "#btn" rfl).1⟩

theorem handleStop_twice (cst : CloudWs.CState) :
    CloudWs.handleStop (CloudWs.handleStop cst).1
      = ((CloudWs.handleStop cst).1,
         { rtype := "stop_response", success := true,
           message := some "Browser stopped" }) := by
  unfold CloudWs.handleStop
  cases hcb : cst.browser <;> simp [hcb]

/-- C9: teardown is idempotent — closing a session id with no live session
(never created, or already closed) is a no-op success; a close immediately
after any close finds no session, changes nothing and still answers
success; and in the CloudAI websocket function a second `stop` is a no-op
that again answers `stop_response` success. -/
theorem c9_teardown_idempotent (st stA : BrowserSrv.BState) (sid : String)
    (cst : CloudWs.CState)
    (h : BrowserSrv.lookupSession st sid = none) :
    BrowserSrv.closeSessionEndpoint st sid
      = (st, { success := true, message := some "Session closed" })
  ∧ BrowserSrv.closeSessionEndpoint
      (BrowserSrv.closeSessionEndpoint stA sid).1 sid
      = ((BrowserSrv.closeSessionEndpoint stA sid).1,
         { success := true, message := some "Session closed" })
  ∧ CloudWs.handleStop (CloudWs.handleStop cst).1
      = ((CloudWs.handleStop cst).1,
         { rtype := "stop_response", success := true,
           message := some "Browser stopped" }) :=
  ⟨closeSession_missing st sid h,
   closeSession_missing _ sid (lookup_after_close stA sid),
   handleStop_twice cst⟩

/-- Witness for C9 at the empty server state and a live connection state. -/
theorem c9_teardown_idempotent_witness :
    BrowserSrv.lookupSession BrowserSrv.emptyState "s1" = none
  ∧ BrowserSrv.closeSessionEndpoint BrowserSrv.emptyState "s1"
      = (BrowserSrv.emptyState,
         { success := true, message := some "Session closed" }) :=
  ⟨rfl,
   (c9_teardown_idempotent BrowserSrv.emptyState BrowserSrv.emptyState "s1"
      CloudWs.sampleC rfl).1⟩

/-- C10: in the CloudAI server all connected clients share one global
browser and page — a successful `init` from any client closes the
previously shared browser handle and replaces it with a fresh one for
everyone (the client set itself is untouched), and the screenshot stream
broadcasts the identical frame message to every open client. -/
theorem c10_single_shared_browser (st : ServerJs.ServerState) (b : Nat)
    (f : ServerJs.Frame) (hb : st.browser = some b)
    (hlt : b < st.nextHandle) :
    (ServerJs.initializeBrowser st true).2.success = true
  ∧ (ServerJs.initializeBrowser st true).1.browser = some st.nextHandle
  ∧ b ∈ (ServerJs.initializeBrowser st true).1.closedBrowsers
  ∧ (ServerJs.initializeBrowser st true).1.browser ≠ some b
  ∧ (ServerJs.initializeBrowser st true).1.connectedClients
      = st.connectedClients
  ∧ ∀ q ∈ ServerJs.broadcastFrame st.connectedClients f, q.2 = f := by
  unfold ServerJs.initializeBrowser ServerJs.startScreenshotStream
  rw [hb]
  refine ⟨rfl, rfl, ?_, ?_, rfl, ?_⟩
  · exact List.mem_cons_self b st.closedBrowsers
  · intro hEq
    have h2 : some st.nextHandle = some b := hEq
    have h3 : st.nextHandle = b := by injection h2
    omega
  · intro q hq
    unfold ServerJs.broadcastFrame at hq
    obtain ⟨c, _, rfl⟩ := List.mem_map.mp hq
    rfl

/-- Witness for C10 at the sample state, whose browser handle 0 is live. -/
theorem c10_single_shared_browser_witness :
    ServerJs.sampleState.browser = some 0
  ∧ 0 < ServerJs.sampleState.nextHandle
  ∧ (ServerJs.initializeBrowser ServerJs.sampleState true).1.browser
      = some ServerJs.sampleState.nextHandle :=
  ⟨rfl, by decide,
   (c10_single_shared_browser ServerJs.sampleState 0 ServerJs.sampleFrame
      rfl (by decide)).2.1⟩
